import Mathlib

/-!
Verification of the libssh PKI fragment (pki.c): the key entity, the
public-key blob codec, the text-line tokenizer and the transcript signing
engine, shallowly embedded over lists of byte values (`Nat`).

Bytes are `Nat`; a C `ssh_string` travels on the wire as a 4-byte
big-endian length followed by that many data bytes. Backend primitives
(key construction from decoded fields, the raw signature primitive, the
SHA-1 compression itself) are outside this fragment; where a claim needs
them they are either modelled from the spec (marked as such) or taken as
function parameters.
-/

namespace Pki

/-- The `enum ssh_keytypes_e` of the source. -/
inductive ssh_keytypes where
  | SSH_KEYTYPE_UNKNOWN
  | SSH_KEYTYPE_DSS
  | SSH_KEYTYPE_RSA
  | SSH_KEYTYPE_RSA1
  | SSH_KEYTYPE_ECDSA
deriving DecidableEq, Repr

open ssh_keytypes

/-- Key flag constants from the source headers: no halves present. -/
def SSH_KEY_FLAG_EMPTY : Nat := 0

/-- Key flag bit: public material present. -/
def SSH_KEY_FLAG_PUBLIC : Nat := 1

/-- Key flag bit: private material present. -/
def SSH_KEY_FLAG_PRIVATE : Nat := 2

/-- Backend RSA public material: the (e, n) scalars held behind the
opaque `key->rsa` handle. -/
structure RsaMaterial where
  e : List Nat
  n : List Nat
deriving DecidableEq, Repr

/-- Backend DSA public material: the (p, q, g, y) scalars held behind the
opaque `key->dsa` handle. -/
structure DsaMaterial where
  p : List Nat
  q : List Nat
  g : List Nat
  y : List Nat
deriving DecidableEq, Repr

/-- The `struct ssh_key_struct`: type tag, cached canonical name
(`type_c`, NULL on an empty key), flag word, and the two backend material
handles (at most one non-null on a well-formed key). -/
structure SshKey where
  type : ssh_keytypes
  type_c : Option String
  flags : Nat
  dsa : Option DsaMaterial
  rsa : Option RsaMaterial
deriving DecidableEq, Repr

/-- `ssh_key_type_to_char`: canonical display name per type, NULL for
the unknown sentinel. -/
def ssh_key_type_to_char (type : ssh_keytypes) : Option String :=
  match type with
  | SSH_KEYTYPE_DSS => some ( "ssh-dss" )
  | SSH_KEYTYPE_RSA => some ( "ssh-rsa" )
  | SSH_KEYTYPE_RSA1 => some ( "ssh-rsa1" )
  | SSH_KEYTYPE_ECDSA => some ( "ssh-ecdsa" )
  | SSH_KEYTYPE_UNKNOWN => none

/-- `ssh_key_type_from_name`: the strcmp chain of the source. The branch
that recognizes the five ECDSA-family names has an empty body in the
source (pki.c lines 192-197), so those names fall through to the final
`return SSH_KEYTYPE_UNKNOWN` exactly like an unrecognized name; the
embedding reproduces that fall-through. -/
def ssh_key_type_from_name (name : String) : ssh_keytypes :=
  if name = "rsa1" then SSH_KEYTYPE_RSA1
  else if name = "rsa" then SSH_KEYTYPE_RSA
  else if name = "dsa" then SSH_KEYTYPE_DSS
  else if name = "ssh-rsa1" then SSH_KEYTYPE_RSA1
  else if name = "ssh-rsa" then SSH_KEYTYPE_RSA
  else if name = "ssh-dss" then SSH_KEYTYPE_DSS
  else if name = "ssh-ecdsa" ∨ name = "ecdsa" ∨
          name = "ecdsa-sha2-nistp256" ∨ name = "ecdsa-sha2-nistp384" ∨
          name = "ecdsa-sha2-nistp521" then SSH_KEYTYPE_UNKNOWN
  else SSH_KEYTYPE_UNKNOWN

/-- `ssh_key_new`: a freshly allocated, zeroed key (ZERO_STRUCTP): the
first enum value for the type, NULL name, empty flags, NULL handles. -/
def ssh_key_new : SshKey :=
  { type := SSH_KEYTYPE_UNKNOWN, type_c := none,
    flags := SSH_KEY_FLAG_EMPTY, dsa := none, rsa := none }

/-- `ssh_key_type`: NULL-safe type query. -/
def ssh_key_type (key : Option SshKey) : ssh_keytypes :=
  match key with
  | none => SSH_KEYTYPE_UNKNOWN
  | some k => k.type

/-- `ssh_key_is_public`: NULL-safe flag test, returning the C int
`k->flags & SSH_KEY_FLAG_PUBLIC` (0 means false). -/
def ssh_key_is_public (k : Option SshKey) : Nat :=
  match k with
  | none => 0
  | some k => k.flags &&& SSH_KEY_FLAG_PUBLIC

/-- `ssh_key_is_private`: NULL-safe flag test, returning the C int
`k->flags & SSH_KEY_FLAG_PRIVATE` (0 means false). -/
def ssh_key_is_private (k : Option SshKey) : Nat :=
  match k with
  | none => 0
  | some k => k.flags &&& SSH_KEY_FLAG_PRIVATE

/-- The empty key state `ssh_key_clean` leaves behind: unknown type,
cleared name, empty flags, both material handles null. -/
def emptyKeyState (k : SshKey) : Bool :=
  k.type == SSH_KEYTYPE_UNKNOWN && k.type_c == none &&
    k.flags == SSH_KEY_FLAG_EMPTY && k.dsa == none && k.rsa == none

/-- Result of `ssh_key_clean`: the key state afterwards plus which
backend destructors (`DSA_free`/`RSA_free`) the call invoked, so that
double-free behaviour is visible in the model. -/
structure CleanResult where
  key : Option SshKey
  freedDsa : Bool
  freedRsa : Bool
deriving DecidableEq, Repr

/-- `ssh_key_clean`: NULL is an early return; otherwise the backend
destructor runs for each non-null material handle and every field is
reset to the empty state. -/
def ssh_key_clean (key : Option SshKey) : CleanResult :=
  match key with
  | none => ⟨none, false, false⟩
  | some k =>
      ⟨some { type := SSH_KEYTYPE_UNKNOWN, type_c := none,
              flags := SSH_KEY_FLAG_EMPTY, dsa := none, rsa := none },
       k.dsa.isSome, k.rsa.isSome⟩

/-- Big-endian 4-byte encoding of a length, as `ssh_string_new` stores
it (htonl) at the front of an `ssh_string`. -/
def u32be (n : Nat) : List Nat :=
  [n / 2 ^ 24 % 256, n / 2 ^ 16 % 256, n / 2 ^ 8 % 256, n % 256]

/-- A C `ssh_string` as it sits in memory and on the wire: 4-byte
big-endian length followed by the data bytes. -/
def wireStr (data : List Nat) : List Nat :=
  u32be data.length ++ data

/-- `buffer_get_ssh_string`: read a 4-byte big-endian length, then that
many bytes; a length that would overrun the remaining buffer is a
failure (NULL), not a short read. Returns the data and the rest of the
buffer. -/
def buffer_get_ssh_string (buf : List Nat) : Option (List Nat × List Nat) :=
  match buf with
  | b0 :: b1 :: b2 :: b3 :: rest =>
      let len := ((b0 * 256 + b1) * 256 + b2) * 256 + b3
      if len ≤ rest.length then some (rest.take len, rest.drop len) else none
  | _ => none

/-- `ssh_string_to_char`: the data bytes of a wire string viewed as a C
string (our names are plain ASCII, no interior NUL). -/
def ssh_string_to_char (bs : List Nat) : String :=
  String.mk (bs.map Char.ofNat)

/-- Byte representation of an ASCII name, the inverse direction. -/
def strBytes (s : String) : List Nat :=
  s.data.map Char.toNat

/-- Modelled from the spec: `pki_pubkey_build_dss` is supplied by the
cryptographic backend, outside this fragment. Per the spec it constructs
the DSA public material on the key from the four decoded fields and
fails (InvalidKeyMaterial) when the backend rejects the values; a
missing (NULL) field can never yield a constructed key. The fourth
argument is an `Option` because the caller in this fragment can pass a
NULL `ssh_string` for it. -/
def pki_pubkey_build_dss (key : SshKey) (p q g : List Nat)
    (y : Option (List Nat)) : Option SshKey :=
  match y with
  | none => none
  | some y => some { key with dsa := some ⟨p, q, g, y⟩ }

/-- Modelled from the spec: `pki_pubkey_build_rsa` is supplied by the
cryptographic backend, outside this fragment. It constructs the RSA
public material on the key from the two decoded fields. -/
def pki_pubkey_build_rsa (key : SshKey) (e n : List Nat) : Option SshKey :=
  some { key with rsa := some ⟨e, n⟩ }

/-- Result of `pki_import_pubkey_buffer`: the returned key (none on
SSH_ERROR) together with a record of the backend build call the code
made, if any, so that what reaches the backend is visible. -/
structure PubkeyImportTrace where
  result : Option SshKey
  dssBuild : Option (List Nat × List Nat × List Nat × Option (List Nat))
  rsaBuild : Option (List Nat × List Nat)
deriving DecidableEq, Repr

/-- `pki_import_pubkey_buffer`: dispatch on the already-mapped type and
read the fixed field sequence. In the DSS branch the source reads the
fourth field into `pubkey` but then re-checks `g` (pki.c line 437), a
check that can never fire at that point, so a missing fourth field does
not take the failure path: the build runs with `pubkey` NULL. The
embedding reproduces this by not failing on a missing fourth field. -/
def pki_import_pubkey_buffer (buffer : List Nat) (type : ssh_keytypes) :
    PubkeyImportTrace :=
  let key0 : SshKey :=
    { type := type, type_c := ssh_key_type_to_char type,
      flags := SSH_KEY_FLAG_PUBLIC, dsa := none, rsa := none }
  match type with
  | SSH_KEYTYPE_DSS =>
      match buffer_get_ssh_string buffer with
      | none => ⟨none, none, none⟩
      | some (p, r1) =>
          match buffer_get_ssh_string r1 with
          | none => ⟨none, none, none⟩
          | some (q, r2) =>
              match buffer_get_ssh_string r2 with
              | none => ⟨none, none, none⟩
              | some (g, r3) =>
                  let pubkey := (buffer_get_ssh_string r3).map Prod.fst
                  match pki_pubkey_build_dss key0 p q g pubkey with
                  | none => ⟨none, some (p, q, g, pubkey), none⟩
                  | some k => ⟨some k, some (p, q, g, pubkey), none⟩
  | SSH_KEYTYPE_RSA | SSH_KEYTYPE_RSA1 =>
      match buffer_get_ssh_string buffer with
      | none => ⟨none, none, none⟩
      | some (e, r1) =>
          match buffer_get_ssh_string r1 with
          | none => ⟨none, none, none⟩
          | some (n, _) =>
              match pki_pubkey_build_rsa key0 e n with
              | none => ⟨none, none, some (e, n)⟩
              | some k => ⟨some k, none, some (e, n)⟩
  | SSH_KEYTYPE_ECDSA | SSH_KEYTYPE_UNKNOWN => ⟨none, none, none⟩

/-- `ssh_pki_import_pubkey_base64` after the out-of-scope base64
transform: the argument is the decoded byte buffer. The leading type-tag
wire string is read and then freed unexamined; the caller-supplied
`type` is what is passed on to `pki_import_pubkey_buffer`. -/
def ssh_pki_import_pubkey_base64 (buf : List Nat) (type : ssh_keytypes) :
    Option SshKey :=
  match buffer_get_ssh_string buf with
  | none => none
  | some (_, rest) => (pki_import_pubkey_buffer rest type).result

/-- `ssh_pki_import_pubkey_blob`: read the type-tag wire string, map it
through `ssh_key_type_from_name`, and hand the remaining buffer to
`pki_import_pubkey_buffer`. -/
def ssh_pki_import_pubkey_blob (blob : List Nat) : Option SshKey :=
  match buffer_get_ssh_string blob with
  | none => none
  | some (type_s, rest) =>
      (pki_import_pubkey_buffer rest
        (ssh_key_type_from_name (ssh_string_to_char type_s))).result

/-- Modelled from the spec: `pki_publickey_to_blob` is supplied by the
backend glue, outside this fragment. Per the spec encode writes the
canonical type-tag wire string followed by the fixed field sequence for
the key's algorithm ((e, n) for RSA/RSA1, (p, q, g, y) for DSA), reading
the scalars out of the backend material, and fails (NotExportable) for
the ECDSA placeholder and Unknown. -/
def pki_publickey_to_blob (key : SshKey) : Option (List Nat) :=
  match key.type, key.rsa, key.dsa with
  | SSH_KEYTYPE_RSA, some m, _ =>
      some (wireStr (strBytes ( "ssh-rsa" )) ++ wireStr m.e ++ wireStr m.n)
  | SSH_KEYTYPE_RSA1, some m, _ =>
      some (wireStr (strBytes ( "ssh-rsa1" )) ++ wireStr m.e ++ wireStr m.n)
  | SSH_KEYTYPE_DSS, _, some m =>
      some (wireStr (strBytes ( "ssh-dss" )) ++ wireStr m.p ++ wireStr m.q ++
        wireStr m.g ++ wireStr m.y)
  | _, _, _ => none

/-- `ssh_pki_export_pubkey_blob`: NULL check then delegate to the
backend encoder. -/
def ssh_pki_export_pubkey_blob (key : Option SshKey) : Option (List Nat) :=
  match key with
  | none => none
  | some k => pki_publickey_to_blob k

/-- A validly constructed public key of a supported algorithm: the
material handle matching the type is present (and only that one), and
every scalar is small enough for its 4-byte wire length. -/
def wellFormedPublicKey (k : SshKey) : Bool :=
  match k.type, k.rsa, k.dsa with
  | SSH_KEYTYPE_RSA, some m, none =>
      decide (m.e.length < 2 ^ 32) && decide (m.n.length < 2 ^ 32)
  | SSH_KEYTYPE_RSA1, some m, none =>
      decide (m.e.length < 2 ^ 32) && decide (m.n.length < 2 ^ 32)
  | SSH_KEYTYPE_DSS, none, some m =>
      decide (m.p.length < 2 ^ 32) && decide (m.q.length < 2 ^ 32) &&
        decide (m.g.length < 2 ^ 32) && decide (m.y.length < 2 ^ 32)
  | _, _, _ => false

/-- The C-locale `isspace` on a byte: space, tab, newline, vertical tab,
form feed, carriage return. -/
def isspace (c : Nat) : Bool :=
  c == 32 || c == 9 || c == 10 || c == 11 || c == 12 || c == 13

/-- The token scan of `ssh_pki_import_pubkey_file`:
`while (!isspace(*p)) p++` followed by `*p = 0`. The loop checks nothing
but `isspace`, so when the buffer is exhausted before a whitespace byte
is found the pointer has walked past the end of the allocation; the
embedding returns `none` for that out-of-bounds scan. On success it
returns the token (bytes before the first whitespace) and the bytes
after that whitespace byte. -/
def scanToken (buf : List Nat) : Option (List Nat × List Nat) :=
  match buf with
  | [] => none
  | c :: rest =>
      if isspace c then some ([], rest)
      else
        match scanToken rest with
        | none => none
        | some (tok, r) => some (c :: tok, r)

/-- Outcome of the tokenizing phase of `ssh_pki_import_pubkey_file`. -/
inductive PubkeyFileParse where
  | OutOfBoundsScan
  | UnknownType
  | parsed (type : ssh_keytypes) (b64 : List Nat)
deriving DecidableEq, Repr

/-- The tokenizing phase of `ssh_pki_import_pubkey_file` on the file
contents: scan the first token, map it through `ssh_key_type_from_name`
(SSH_ERROR when unknown), then scan the second token, which is handed on
to the base64 importer. Each scan with no whitespace left runs past the
end of the buffer (the source never NUL-terminates `key_buf` and the
loop has no bound), reported here as `OutOfBoundsScan`. -/
def ssh_pki_import_pubkey_file_tokenize (contents : List Nat) :
    PubkeyFileParse :=
  match scanToken contents with
  | none => .OutOfBoundsScan
  | some (t1, r1) =>
      let type := ssh_key_type_from_name (ssh_string_to_char t1)
      if type = SSH_KEYTYPE_UNKNOWN then .UnknownType
      else
        match scanToken r1 with
        | none => .OutOfBoundsScan
        | some (t2, _) => .parsed type t2

/-- `SHA_DIGEST_LEN` for the fixed SHA-1 transcript hash. -/
def SHA_DIGEST_LEN : Nat := 20

/-- Modelled from the spec: `signature_to_string` is supplied by the
backend glue, outside this fragment. Per the spec it wraps the raw
signature bytes with the key's algorithm tag into the typed wire
format: tag wire string followed by the length-prefixed signature
bytes. -/
def signature_to_string (typeName : Option String) (raw : List Nat) :
    List Nat :=
  match typeName with
  | none => wireStr [] ++ wireStr raw
  | some s => wireStr (strBytes s) ++ wireStr raw

/-- Observable behaviour of one `ssh_pki_do_sign` call: whether the hash
primitive was started and finished, the exact byte sequence fed to it
across all `sha1_update` calls, the buffer handed to the
algorithm-specific `pki_do_sign` primitive (none when never invoked),
and the returned signature string (none on failure). -/
structure SignTrace where
  sha1_init_called : Bool
  hashInput : List Nat
  sha1_final_called : Bool
  signArg : Option (List Nat)
  result : Option (List Nat)
deriving DecidableEq, Repr

/-- `ssh_pki_do_sign`, with the backend digest (`sha1`) and raw signing
primitive (`signPrim`) as parameters. The session id is the 20-byte
`crypto->session_id` array. The private-key guard runs first; then a
20-byte `ssh_string` is filled from the session id and fed to
`sha1_update` as its in-memory wire form (4-byte big-endian length 20
then the 20 data bytes, `ssh_string_len + 4` bytes in all), followed by
the raw bytes of `sigbuf`; the digest is written at `hash + 1` into a
21-byte zeroed array with `hash[0] = 0`, and that array is handed to
`pki_do_sign`. -/
def ssh_pki_do_sign (sessionId : List Nat) (sigbuf : List Nat)
    (privatekey : Option SshKey) (sha1 : List Nat → List Nat)
    (signPrim : SshKey → List Nat → Option (List Nat)) : SignTrace :=
  match privatekey with
  | none => ⟨false, [], false, none, none⟩
  | some k =>
      if k.flags &&& SSH_KEY_FLAG_PRIVATE = 0 then
        ⟨false, [], false, none, none⟩
      else
        let transcript :=
          u32be SHA_DIGEST_LEN ++ sessionId.take SHA_DIGEST_LEN ++ sigbuf
        let hash := 0 :: sha1 transcript
        match signPrim k hash with
        | none => ⟨true, transcript, true, some hash, none⟩
        | some raw =>
            ⟨true, transcript, true, some hash,
             some (signature_to_string k.type_c raw)⟩

theorem u32be_value (n : Nat) (h : n < 2 ^ 32) :
    ((n / 2 ^ 24 % 256 * 256 + n / 2 ^ 16 % 256) * 256 + n / 2 ^ 8 % 256) *
        256 + n % 256 = n := by
  omega

/-- Reading a well-formed wire string off the front of a buffer returns
its data and the remainder. -/
theorem buffer_get_wireStr (d rest : List Nat) (h : d.length < 2 ^ 32) :
    buffer_get_ssh_string (wireStr d ++ rest) = some (d, rest) := by
  have e1 : wireStr d ++ rest =
      d.length / 2 ^ 24 % 256 :: d.length / 2 ^ 16 % 256 ::
        d.length / 2 ^ 8 % 256 :: d.length % 256 :: (d ++ rest) := by
    simp [wireStr, u32be]
  rw [e1]
  show (if ((d.length / 2 ^ 24 % 256 * 256 + d.length / 2 ^ 16 % 256) * 256 +
        d.length / 2 ^ 8 % 256) * 256 + d.length % 256 ≤ (d ++ rest).length
      then some ((d ++ rest).take _, (d ++ rest).drop _) else none) = _
  rw [u32be_value d.length h]
  rw [if_pos (by simp)]
  rw [List.take_left, List.drop_left]

/-- Special case: a wire string alone in the buffer. -/
theorem buffer_get_wireStr_only (d : List Nat) (h : d.length < 2 ^ 32) :
    buffer_get_ssh_string (wireStr d) = some (d, []) := by
  have := buffer_get_wireStr d [] h
  simpa using this

/-- C1: every name in the fixed alias table maps to the expected
algorithm, but every ECDSA-family name evaluates to
`SSH_KEYTYPE_UNKNOWN` — the same value as an unrecognized name, not a
distinct unsupported outcome — because the recognizing branch in the
source has an empty body and falls through. -/
theorem keytype_from_name_ecdsa_falls_through :
    ssh_key_type_from_name ( "rsa" ) = SSH_KEYTYPE_RSA ∧
    ssh_key_type_from_name ( "ssh-rsa" ) = SSH_KEYTYPE_RSA ∧
    ssh_key_type_from_name ( "dsa" ) = SSH_KEYTYPE_DSS ∧
    ssh_key_type_from_name ( "ssh-dss" ) = SSH_KEYTYPE_DSS ∧
    ssh_key_type_from_name ( "rsa1" ) = SSH_KEYTYPE_RSA1 ∧
    ssh_key_type_from_name ( "ssh-rsa1" ) = SSH_KEYTYPE_RSA1 ∧
    ssh_key_type_from_name ( "ssh-ecdsa" ) = SSH_KEYTYPE_UNKNOWN ∧
    ssh_key_type_from_name ( "ecdsa" ) = SSH_KEYTYPE_UNKNOWN ∧
    ssh_key_type_from_name ( "ecdsa-sha2-nistp256" ) = SSH_KEYTYPE_UNKNOWN ∧
    ssh_key_type_from_name ( "ecdsa-sha2-nistp384" ) = SSH_KEYTYPE_UNKNOWN ∧
    ssh_key_type_from_name ( "ecdsa-sha2-nistp521" ) = SSH_KEYTYPE_UNKNOWN := by
  decide

/-- C2: a DSA public blob holding exactly the three fields p, q, g and
nothing after them does not take the failure path: the fourth-field
check tests the wrong variable, so the backend build primitive is
invoked with the three read fields and a NULL fourth field. By contrast
a blob truncated before q fails before any build call. -/
theorem dss_truncated_fourth_field_reaches_build :
    (pki_import_pubkey_buffer (wireStr [1] ++ wireStr [2] ++ wireStr [3])
        SSH_KEYTYPE_DSS).dssBuild = some ([1], [2], [3], none) ∧
    (pki_import_pubkey_buffer (wireStr [1]) SSH_KEYTYPE_DSS).dssBuild =
      none ∧
    (pki_import_pubkey_buffer (wireStr [1]) SSH_KEYTYPE_DSS).result =
      none := by
  refine ⟨by decide, by decide, by decide⟩

/-- C6: releasing a key leaves it in the empty state; releasing it again
(the result of the first release) is a defined no-op that invokes no
backend destructor and leaves the same empty state, and releasing a NULL
key frees nothing. -/
theorem key_clean_idempotent (k : SshKey) :
    ∃ k1, (ssh_key_clean (some k)).key = some k1 ∧
      emptyKeyState k1 = true ∧
      ssh_key_clean ((ssh_key_clean (some k)).key) =
        ⟨(ssh_key_clean (some k)).key, false, false⟩ ∧
      ssh_key_clean none = ⟨none, false, false⟩ :=
  ⟨ssh_key_new, rfl, by decide, rfl, rfl⟩

/-- C7: the query operations are total: on a NULL handle `is_public` and
`is_private` return 0 (false) and the type query returns the unknown
sentinel, and the same holds on any empty key, with no precondition. -/
theorem query_ops_total_on_null_and_empty (k : SshKey)
    (h : emptyKeyState k = true) :
    ssh_key_is_public none = 0 ∧ ssh_key_is_private none = 0 ∧
    ssh_key_type none = SSH_KEYTYPE_UNKNOWN ∧
    ssh_key_is_public (some k) = 0 ∧ ssh_key_is_private (some k) = 0 ∧
    ssh_key_type (some k) = SSH_KEYTYPE_UNKNOWN := by
  simp only [emptyKeyState, Bool.and_eq_true, beq_iff_eq] at h
  obtain ⟨⟨⟨⟨ht, -⟩, hf⟩, -⟩, -⟩ := h
  refine ⟨rfl, rfl, rfl, ?_, ?_, ?_⟩
  · simp [ssh_key_is_public, hf, SSH_KEY_FLAG_EMPTY]
  · simp [ssh_key_is_private, hf, SSH_KEY_FLAG_EMPTY]
  · simp [ssh_key_type, ht]

/-- Witness for C7 at the concrete empty key. -/
theorem query_ops_total_on_null_and_empty_witness :
    ssh_key_is_public none = 0 ∧ ssh_key_is_private none = 0 ∧
    ssh_key_type none = SSH_KEYTYPE_UNKNOWN ∧
    ssh_key_is_public (some ssh_key_new) = 0 ∧
    ssh_key_is_private (some ssh_key_new) = 0 ∧
    ssh_key_type (some ssh_key_new) = SSH_KEYTYPE_UNKNOWN :=
  query_ops_total_on_null_and_empty _ (by decide)

/-- C9: the whitespace scan of the public-key file tokenizer runs past
the end of the buffer on an empty input (no clean failure), while a line
holding an algorithm token and a base64 token with no comment token
tokenizes successfully. -/
theorem pubkey_file_scan_overruns_empty_input :
    ssh_pki_import_pubkey_file_tokenize [] = .OutOfBoundsScan ∧
    ssh_pki_import_pubkey_file_tokenize (strBytes ( "ssh-dss AAAA\n" )) =
      .parsed SSH_KEYTYPE_DSS (strBytes ( "AAAA" )) := by
  decide

/-- C3: on any key whose private flag is not set — a NULL handle
included — the signing call returns no signature and the trace is empty:
the hash primitive is never started or finished, no bytes are fed to it,
and the algorithm-specific sign primitive is never invoked. -/
theorem do_sign_not_private_no_primitives (sessionId sigbuf : List Nat)
    (privatekey : Option SshKey) (sha1 : List Nat → List Nat)
    (signPrim : SshKey → List Nat → Option (List Nat))
    (h : ssh_key_is_private privatekey = 0) :
    ssh_pki_do_sign sessionId sigbuf privatekey sha1 signPrim =
      ⟨false, [], false, none, none⟩ := by
  cases privatekey with
  | none => rfl
  | some k =>
      simp only [ssh_key_is_private] at h
      simp [ssh_pki_do_sign, h]

/-- Witness for C3 at a NULL key. -/
theorem do_sign_not_private_no_primitives_witness :
    ssh_pki_do_sign [] [] none (fun l => l) (fun _ _ => none) =
      ⟨false, [], false, none, none⟩ :=
  do_sign_not_private_no_primitives [] [] none (fun l => l)
    (fun _ _ => none) rfl

/-- C4: on a private key the byte sequence fed to the hash primitive is
exactly the 4-byte big-endian constant 20 (the SHA-1 digest size, fixed
by `ssh_string_new(SHA_DIGEST_LEN)` independent of the session-id
length), then exactly 20 bytes copied from the session identifier, then
the raw bytes of the buffer being authenticated. -/
theorem do_sign_hash_input_layout (sessionId sigbuf : List Nat)
    (k : SshKey) (sha1 : List Nat → List Nat)
    (signPrim : SshKey → List Nat → Option (List Nat))
    (hpriv : ssh_key_is_private (some k) ≠ 0)
    (hlen : SHA_DIGEST_LEN ≤ sessionId.length) :
    (ssh_pki_do_sign sessionId sigbuf (some k) sha1 signPrim).hashInput =
      [0, 0, 0, 20] ++ sessionId.take SHA_DIGEST_LEN ++ sigbuf ∧
    (sessionId.take SHA_DIGEST_LEN).length = SHA_DIGEST_LEN := by
  simp only [ssh_key_is_private] at hpriv
  constructor
  · simp only [ssh_pki_do_sign]
    rw [if_neg hpriv]
    rcases hs : signPrim k (0 :: sha1 (u32be SHA_DIGEST_LEN ++
        sessionId.take SHA_DIGEST_LEN ++ sigbuf)) with - | raw <;>
      simp [hs, u32be, SHA_DIGEST_LEN]
  · rw [List.length_take]
    omega

/-- Witness for C4 at a concrete private key and 20-byte session id. -/
theorem do_sign_hash_input_layout_witness :
    (ssh_pki_do_sign (List.replicate 20 5) [1, 2]
        (some { type := SSH_KEYTYPE_RSA, type_c := some ( "ssh-rsa" ),
                flags := SSH_KEY_FLAG_PRIVATE, dsa := none,
                rsa := some ⟨[1], [2]⟩ })
        (fun _ => List.replicate 20 9) (fun _ _ => none)).hashInput =
      [0, 0, 0, 20] ++ (List.replicate 20 5).take SHA_DIGEST_LEN ++
        [1, 2] ∧
    ((List.replicate 20 5).take SHA_DIGEST_LEN).length = SHA_DIGEST_LEN :=
  do_sign_hash_input_layout (List.replicate 20 5) [1, 2] _
    (fun _ => List.replicate 20 9) (fun _ _ => none) (by decide)
    (by decide)

/-- C10: on a private key the buffer handed to the algorithm-specific
sign primitive is 21 bytes (digest size plus one): byte 0 is the
constant 0 and bytes 1 through 20 are the SHA-1 digest of the
transcript; the digest does not start at offset 0. -/
theorem do_sign_digest_offset_one (sessionId sigbuf : List Nat)
    (k : SshKey) (sha1 : List Nat → List Nat)
    (signPrim : SshKey → List Nat → Option (List Nat))
    (hpriv : ssh_key_is_private (some k) ≠ 0)
    (hdig : (sha1 (u32be SHA_DIGEST_LEN ++ sessionId.take SHA_DIGEST_LEN ++
        sigbuf)).length = SHA_DIGEST_LEN) :
    ∃ buf,
      (ssh_pki_do_sign sessionId sigbuf (some k) sha1 signPrim).signArg =
        some buf ∧
      buf.length = SHA_DIGEST_LEN + 1 ∧ buf.head? = some 0 ∧
      buf.drop 1 = sha1 (u32be SHA_DIGEST_LEN ++
        sessionId.take SHA_DIGEST_LEN ++ sigbuf) := by
  simp only [ssh_key_is_private] at hpriv
  refine ⟨0 :: sha1 (u32be SHA_DIGEST_LEN ++
      sessionId.take SHA_DIGEST_LEN ++ sigbuf), ?_, ?_, rfl, rfl⟩
  · simp only [ssh_pki_do_sign]
    rw [if_neg hpriv]
    rcases hs : signPrim k (0 :: sha1 (u32be SHA_DIGEST_LEN ++
        sessionId.take SHA_DIGEST_LEN ++ sigbuf)) with - | raw <;>
      simp [hs]
  · simp only [List.length_cons, hdig]

/-- Witness for C10 at a concrete private key and digest function. -/
theorem do_sign_digest_offset_one_witness :
    ∃ buf,
      (ssh_pki_do_sign (List.replicate 20 5) [1, 2]
          (some { type := SSH_KEYTYPE_RSA, type_c := some ( "ssh-rsa" ),
                  flags := SSH_KEY_FLAG_PRIVATE, dsa := none,
                  rsa := some ⟨[1], [2]⟩ })
          (fun _ => List.replicate 20 9) (fun _ _ => none)).signArg =
        some buf ∧
      buf.length = SHA_DIGEST_LEN + 1 ∧ buf.head? = some 0 ∧
      buf.drop 1 = (fun _ => List.replicate 20 9)
        (u32be SHA_DIGEST_LEN ++
          (List.replicate 20 5).take SHA_DIGEST_LEN ++ [1, 2]) :=
  do_sign_digest_offset_one (List.replicate 20 5) [1, 2] _
    (fun _ => List.replicate 20 9) (fun _ _ => none) (by decide)
    (by decide)

/-- The key produced by `pki_import_pubkey_buffer` always carries the
type that was passed in, with the matching canonical name. -/
theorem import_buffer_result_type (buffer : List Nat) (type : ssh_keytypes)
    (k : SshKey)
    (h : (pki_import_pubkey_buffer buffer type).result = some k) :
    k.type = type ∧ k.type_c = ssh_key_type_to_char type := by
  cases type <;> simp only [pki_import_pubkey_buffer] at h <;>
    (repeat' split at h) <;>
    simp at h <;>
    (rename_i key' heq) <;>
    subst h <;>
    simp only [pki_pubkey_build_dss, pki_pubkey_build_rsa] at heq <;>
    (repeat' split at heq) <;>
    simp at heq <;>
    (rw [← heq]; exact ⟨rfl, rfl⟩)

/-- C8 counterexample: a blob whose internal tag names ssh-dss (and
holds the four DSA fields), decoded through the base64 import entry with
hint RSA, yields a key whose recorded algorithm is RSA — the internal
tag did not determine the result, contradicting the claim. -/
theorem import_base64_internal_tag_not_authoritative :
    ssh_key_type_from_name (ssh_string_to_char (strBytes ( "ssh-dss" ))) =
      SSH_KEYTYPE_DSS ∧
    ∃ k, ssh_pki_import_pubkey_base64
        (wireStr (strBytes ( "ssh-dss" )) ++ wireStr [1] ++ wireStr [2] ++
          wireStr [3] ++ wireStr [4]) SSH_KEYTYPE_RSA = some k ∧
      k.type = SSH_KEYTYPE_RSA ∧ k.type ≠ SSH_KEYTYPE_DSS := by
  refine ⟨by decide, ?_⟩
  refine ⟨{ type := SSH_KEYTYPE_RSA, type_c := some ( "ssh-rsa" ),
            flags := SSH_KEY_FLAG_PUBLIC, dsa := none,
            rsa := some ⟨[1], [2]⟩ }, by decide, by decide, by decide⟩

/-- C8 amended: in base64 public-key decoding the internal type-tag wire
string is read and discarded; whenever a key is returned, its recorded
algorithm (and canonical name) comes from the caller-supplied hint
alone. -/
theorem import_base64_key_type_eq_hint (buf : List Nat)
    (type : ssh_keytypes) (k : SshKey)
    (h : ssh_pki_import_pubkey_base64 buf type = some k) :
    k.type = type ∧ k.type_c = ssh_key_type_to_char type := by
  unfold ssh_pki_import_pubkey_base64 at h
  rcases hb : buffer_get_ssh_string buf with - | ⟨ts, rest⟩
  · rw [hb] at h
    simp at h
  · rw [hb] at h
    exact import_buffer_result_type rest type k (by simpa using h)

/-- Witness for the amended C8 at a concrete blob and hint. -/
theorem import_base64_key_type_eq_hint_witness :
    ({ type := SSH_KEYTYPE_RSA, type_c := some ( "ssh-rsa" ),
       flags := SSH_KEY_FLAG_PUBLIC, dsa := none,
       rsa := some ⟨[5], [7]⟩ } : SshKey).type = SSH_KEYTYPE_RSA ∧
    ({ type := SSH_KEYTYPE_RSA, type_c := some ( "ssh-rsa" ),
       flags := SSH_KEY_FLAG_PUBLIC, dsa := none,
       rsa := some ⟨[5], [7]⟩ } : SshKey).type_c =
      ssh_key_type_to_char SSH_KEYTYPE_RSA :=
  import_base64_key_type_eq_hint
    (wireStr (strBytes ( "ssh-rsa" )) ++ wireStr [5] ++ wireStr [7])
    SSH_KEYTYPE_RSA _ (by decide)

/-- C5: round trip — for every validly constructed public key of a
supported algorithm (RSA, RSA1, DSA) whose cached name is consistent
with its type, exporting the public blob and importing it back yields a
key with the same algorithm, the same public scalar fields, and the same
canonical display name. -/
theorem pubkey_blob_roundtrip (k : SshKey)
    (hw : wellFormedPublicKey k = true)
    (hc : k.type_c = ssh_key_type_to_char k.type) :
    ∃ blob k2, ssh_pki_export_pubkey_blob (some k) = some blob ∧
      ssh_pki_import_pubkey_blob blob = some k2 ∧
      k2.type = k.type ∧ k2.type_c = k.type_c ∧
      k2.rsa = k.rsa ∧ k2.dsa = k.dsa := by
  obtain ⟨type, tc, fl, dsa, rsa⟩ := k
  cases type <;> cases dsa <;> cases rsa <;>
      simp only [wellFormedPublicKey, Bool.and_eq_true, decide_eq_true_eq] at hw <;>
      (try exact absurd hw (by decide))
  case SSH_KEYTYPE_RSA.none.some m =>
    obtain ⟨he, hn⟩ := hw
    simp only [ssh_key_type_to_char] at hc
    subst hc
    refine ⟨wireStr (strBytes ( "ssh-rsa" )) ++ wireStr m.e ++ wireStr m.n,
      ⟨SSH_KEYTYPE_RSA, some ( "ssh-rsa" ), SSH_KEY_FLAG_PUBLIC, none,
        some ⟨m.e, m.n⟩⟩, rfl, ?_, rfl, rfl, rfl, rfl⟩
    have h1 : buffer_get_ssh_string (wireStr (strBytes ( "ssh-rsa" )) ++
        (wireStr m.e ++ wireStr m.n)) =
        some (strBytes ( "ssh-rsa" ), wireStr m.e ++ wireStr m.n) :=
      buffer_get_wireStr _ _ (by decide)
    have hname : ssh_key_type_from_name
        (ssh_string_to_char (strBytes ( "ssh-rsa" ))) = SSH_KEYTYPE_RSA := by
      decide
    have h2 : buffer_get_ssh_string (wireStr m.e ++ wireStr m.n) =
        some (m.e, wireStr m.n) := buffer_get_wireStr _ _ he
    have h3 : buffer_get_ssh_string (wireStr m.n) = some (m.n, []) :=
      buffer_get_wireStr_only _ hn
    simp [ssh_pki_import_pubkey_blob, h1, hname, pki_import_pubkey_buffer,
      h2, h3, pki_pubkey_build_rsa, ssh_key_type_to_char]
  case SSH_KEYTYPE_RSA1.none.some m =>
    obtain ⟨he, hn⟩ := hw
    simp only [ssh_key_type_to_char] at hc
    subst hc
    refine ⟨wireStr (strBytes ( "ssh-rsa1" )) ++ wireStr m.e ++ wireStr m.n,
      ⟨SSH_KEYTYPE_RSA1, some ( "ssh-rsa1" ), SSH_KEY_FLAG_PUBLIC, none,
        some ⟨m.e, m.n⟩⟩, rfl, ?_, rfl, rfl, rfl, rfl⟩
    have h1 : buffer_get_ssh_string (wireStr (strBytes ( "ssh-rsa1" )) ++
        (wireStr m.e ++ wireStr m.n)) =
        some (strBytes ( "ssh-rsa1" ), wireStr m.e ++ wireStr m.n) :=
      buffer_get_wireStr _ _ (by decide)
    have hname : ssh_key_type_from_name
        (ssh_string_to_char (strBytes ( "ssh-rsa1" ))) = SSH_KEYTYPE_RSA1 := by
      decide
    have h2 : buffer_get_ssh_string (wireStr m.e ++ wireStr m.n) =
        some (m.e, wireStr m.n) := buffer_get_wireStr _ _ he
    have h3 : buffer_get_ssh_string (wireStr m.n) = some (m.n, []) :=
      buffer_get_wireStr_only _ hn
    simp [ssh_pki_import_pubkey_blob, h1, hname, pki_import_pubkey_buffer,
      h2, h3, pki_pubkey_build_rsa, ssh_key_type_to_char]
  case SSH_KEYTYPE_DSS.some.none m =>
    obtain ⟨⟨⟨hp, hq⟩, hg⟩, hy⟩ := hw
    simp only [ssh_key_type_to_char] at hc
    subst hc
    refine ⟨wireStr (strBytes ( "ssh-dss" )) ++ wireStr m.p ++ wireStr m.q ++
        wireStr m.g ++ wireStr m.y,
      ⟨SSH_KEYTYPE_DSS, some ( "ssh-dss" ), SSH_KEY_FLAG_PUBLIC,
        some ⟨m.p, m.q, m.g, m.y⟩, none⟩, rfl, ?_, rfl, rfl, rfl, rfl⟩
    have h1 : buffer_get_ssh_string (wireStr (strBytes ( "ssh-dss" )) ++
        (wireStr m.p ++ (wireStr m.q ++ (wireStr m.g ++ wireStr m.y)))) =
        some (strBytes ( "ssh-dss" ),
          wireStr m.p ++ (wireStr m.q ++ (wireStr m.g ++ wireStr m.y))) :=
      buffer_get_wireStr _ _ (by decide)
    have hname : ssh_key_type_from_name
        (ssh_string_to_char (strBytes ( "ssh-dss" ))) = SSH_KEYTYPE_DSS := by
      decide
    have h2 : buffer_get_ssh_string
        (wireStr m.p ++ (wireStr m.q ++ (wireStr m.g ++ wireStr m.y))) =
        some (m.p, wireStr m.q ++ (wireStr m.g ++ wireStr m.y)) :=
      buffer_get_wireStr _ _ hp
    have h3 : buffer_get_ssh_string
        (wireStr m.q ++ (wireStr m.g ++ wireStr m.y)) =
        some (m.q, wireStr m.g ++ wireStr m.y) := buffer_get_wireStr _ _ hq
    have h4 : buffer_get_ssh_string (wireStr m.g ++ wireStr m.y) =
        some (m.g, wireStr m.y) := buffer_get_wireStr _ _ hg
    have h5 : buffer_get_ssh_string (wireStr m.y) = some (m.y, []) :=
      buffer_get_wireStr_only _ hy
    simp [ssh_pki_import_pubkey_blob, h1, hname, pki_import_pubkey_buffer,
      h2, h3, h4, h5, pki_pubkey_build_dss, ssh_key_type_to_char]

/-- Witness for C5 at a concrete RSA public key. -/
theorem pubkey_blob_roundtrip_witness :
    ∃ blob k2,
      ssh_pki_export_pubkey_blob (some ⟨SSH_KEYTYPE_RSA, some ( "ssh-rsa" ),
        SSH_KEY_FLAG_PUBLIC, none, some ⟨[1, 0, 1], [7, 7]⟩⟩) = some blob ∧
      ssh_pki_import_pubkey_blob blob = some k2 ∧
      k2.type = SSH_KEYTYPE_RSA ∧ k2.type_c = some ( "ssh-rsa" ) ∧
      k2.rsa = some ⟨[1, 0, 1], [7, 7]⟩ ∧ k2.dsa = none :=
  pubkey_blob_roundtrip _ (by decide) (by decide)


end Pki
